import Mathlib

/-!
Shallow embedding of `mygdal.py` (affine geo-referencing, tagged-table
parsing, timeline date resolution and sample time-series extraction) and
verification of the specification's claims about it.

Numeric conventions: Python floats are embedded as exact rationals (ℚ);
Python `datetime` values are embedded as their proleptic-Gregorian ordinal
(Python's `datetime.toordinal`), carried as a rational so that fractional
`timedelta` offsets are representable; integer pixel indices are ℤ.
-/

/-- Error code strings, mirroring the module-level error constants of the
source (`__error_stacks_length__`, `__error_time_line_length__`, ...). -/
def errStacksLength : String := "DiffStacksLength"

def errTimeLineLength : String := "WrongTimeLineLength"

def errRequiredTag : String := "RequiredTagMissing"

def errBandsTags : String := "BandsTagsError"

/-- numpy floor division of two floats followed by the source's replacement
of non-finite entries by 0: `numpy.floor_divide(a, b)` is `⌊a / b⌋` when
`b ≠ 0`, and `±inf`/`nan` (hence 0 after the replacement on lines 141-142)
when `b = 0`. -/
def floor_divide_clean (a b : ℚ) : ℤ :=
  if b = 0 then 0 else ⌊a / b⌋

/-- Elementwise `numpy.sign` on one scalar. -/
def npSign (q : ℚ) : ℚ :=
  if q < 0 then -1 else if q = 0 then 0 else 1

/-- Core affine formula of `pixels_to_geolocs` (line 131):
`geo_ul + geo_resolution * pixels + geo_skew * pixels`, elementwise per
axis. -/
def affine1 (ul res skew p : ℚ × ℚ) : ℚ × ℚ :=
  (ul.1 + res.1 * p.1 + skew.1 * p.1, ul.2 + res.2 * p.2 + skew.2 * p.2)

/-- State of a `Mygdal` raster wrapper. The external GDAL dataset is
abstracted into the data the methods consume: the flattened single-pixel
all-band read (`ReadAsArray`, field `readArr`) and the external OSR
coordinate transform with its `[:, 0:2]` slice applied (field
`transformPoints`). `values_nodata` entries are `none` where
`GetNoDataValue` returns `None`. -/
structure Mygdal where
  srs_wkt : String
  width : ℕ
  height : ℕ
  geo_ul : ℚ × ℚ
  geo_resolution : ℚ × ℚ
  geo_skew : ℚ × ℚ
  geo_lr : ℚ × ℚ
  values_nodata : List (Option ℚ)
  readArr : ℤ × ℤ → List ℚ
  transformPoints : String → List (ℚ × ℚ) → List (ℚ × ℚ)

/-- Construction of the derived geo fields from the six GDAL geotransform
coefficients, mirroring `Mygdal.__init__` lines 60-64:
`geo_resolution = (gt[1], gt[5])`, `geo_skew = (gt[4], gt[2])` (the
crossed indexing of `GT_Y_SKEW`/`GT_X_SKEW`), `geo_ul = (gt[0], gt[3])`,
and `geo_lr = pixels_to_geolocs((width-1, height-1))`. -/
def Mygdal.init (wkt : String) (w h : ℕ) (gt0 gt1 gt2 gt3 gt4 gt5 : ℚ)
    (nodata : List (Option ℚ)) (readArr : ℤ × ℤ → List ℚ)
    (transformPoints : String → List (ℚ × ℚ) → List (ℚ × ℚ)) : Mygdal :=
  let ul : ℚ × ℚ := (gt0, gt3)
  let res : ℚ × ℚ := (gt1, gt5)
  let skew : ℚ × ℚ := (gt4, gt2)
  { srs_wkt := wkt
    width := w
    height := h
    geo_ul := ul
    geo_resolution := res
    geo_skew := skew
    geo_lr := affine1 ul res skew ((w : ℚ) - 1, (h : ℚ) - 1)
    values_nodata := nodata
    readArr := readArr
    transformPoints := transformPoints }

/-- `Mygdal.pixels_to_geolocs` (lines 128-132): empty result for `None`
or an empty sequence, else the affine formula applied to every point. -/
def Mygdal.pixels_to_geolocs (m : Mygdal) (pixels : Option (List (ℚ × ℚ))) :
    List (ℚ × ℚ) :=
  match pixels with
  | none => []
  | some ps =>
      if ps.length = 0 then []
      else ps.map (affine1 m.geo_ul m.geo_resolution m.geo_skew)

/-- `Mygdal.geolocs_to_pixels` (lines 134-144): subtract the origin, floor
divide by the resolution and by the skew (non-finite entries zeroed), and
add the two integer results. -/
def Mygdal.geolocs_to_pixels (m : Mygdal) (geolocs : Option (List (ℚ × ℚ))) :
    List (ℤ × ℤ) :=
  match geolocs with
  | none => []
  | some gs =>
      if gs.length = 0 then []
      else
        gs.map (fun g =>
          let d : ℚ × ℚ := (g.1 - m.geo_ul.1, g.2 - m.geo_ul.2)
          (floor_divide_clean d.1 m.geo_resolution.1 +
             floor_divide_clean d.1 m.geo_skew.1,
           floor_divide_clean d.2 m.geo_resolution.2 +
             floor_divide_clean d.2 m.geo_skew.2))

/-- `Mygdal.are_valid_geolocs` (lines 107-116): numpy `any` over the
elementwise product (conjunction) of `geolocs < geo_ul * sign(res)` and
`geolocs > geo_lr * sign(res)`. -/
def Mygdal.are_valid_geolocs (m : Mygdal) (geolocs : List (ℚ × ℚ)) : Bool :=
  geolocs.any (fun g =>
    (decide (g.1 < m.geo_ul.1 * npSign m.geo_resolution.1) &&
       decide (g.1 > m.geo_lr.1 * npSign m.geo_resolution.1)) ||
    (decide (g.2 < m.geo_ul.2 * npSign m.geo_resolution.2) &&
       decide (g.2 > m.geo_lr.2 * npSign m.geo_resolution.2)))

/-- `Mygdal.are_valid_pixels` (lines 118-126): numpy `any` over the
elementwise product of `pixels < [0, 0]` and `pixels > size`. -/
def Mygdal.are_valid_pixels (m : Mygdal) (pixels : List (ℤ × ℤ)) : Bool :=
  pixels.any (fun p =>
    (decide (p.1 < 0) && decide (p.1 > (m.width : ℤ))) ||
    (decide (p.2 < 0) && decide (p.2 > (m.height : ℤ))))

/-- `Mygdal.read_pixel_values` (lines 146-148): flattened 1x1-window
all-band read of the underlying dataset. -/
def Mygdal.read_pixel_values (m : Mygdal) (pixel : ℤ × ℤ) : List ℚ :=
  m.readArr pixel

/-- Elementwise `value != nodata` where the nodata entry may be Python
`None` (a float never equals `None`). -/
def neqNodata (v : ℚ) (n : Option ℚ) : Bool :=
  match n with
  | none => true
  | some q => decide (v ≠ q)

/-- `Mygdal.mask_nodata_pixel_bands` (lines 150-151): elementwise
`pixel_bands != values_nodata`. -/
def Mygdal.mask_nodata_pixel_bands (m : Mygdal) (pixel_bands : List ℚ) :
    List Bool :=
  List.zipWith neqNodata pixel_bands m.values_nodata

/-- `Mygdal.reproject_geolocs_from` (lines 153-167): identity when the
source reference system text equals the raster's, else the external OSR
transform (with extra coordinates dropped). -/
def Mygdal.reproject_geolocs_from (m : Mygdal) (geolocs : List (ℚ × ℚ))
    (geo_srs_wkt_from : String) : List (ℚ × ℚ) :=
  if m.srs_wkt = geo_srs_wkt_from then geolocs
  else m.transformPoints geo_srs_wkt_from geolocs

/-- Gregorian leap-year test (Python `calendar.isleap`, used implicitly by
`datetime`). -/
def isLeap (y : ℕ) : Bool :=
  (y % 4 = 0 && y % 100 ≠ 0) || y % 400 = 0

/-- Days in the years strictly before year `y` of the proleptic Gregorian
calendar (year 1 is the first year, as in Python `datetime`). -/
def daysBeforeYear (y : ℕ) : ℕ :=
  365 * (y - 1) + (y - 1) / 4 - (y - 1) / 100 + (y - 1) / 400

/-- Month lengths of year `y`. -/
def monthLengths (y : ℕ) : List ℕ :=
  [31, if isLeap y then 29 else 28, 31, 30, 31, 30, 31, 31, 30, 31, 30, 31]

/-- Days in the months of year `y` strictly before month `m`. -/
def daysBeforeMonth (y m : ℕ) : ℕ :=
  ((monthLengths y).take (m - 1)).sum

/-- Proleptic Gregorian ordinal of the date `y-m-d`, as in Python
`datetime.date.toordinal` (ordinal 1 is 0001-01-01). A `datetime` value is
embedded as this ordinal, rationally, so `timedelta` addition is rational
addition. -/
def toOrdinal (y m d : ℕ) : ℕ :=
  daysBeforeYear y + daysBeforeMonth y m + d

/-- Ordinal of a `(year, month, day)` triple. -/
def toOrdinal3 (ymd : ℕ × ℕ × ℕ) : ℕ :=
  toOrdinal ymd.1 ymd.2.1 ymd.2.2

/-- Model of Python's `str.strip()` with no argument: drop leading and
trailing whitespace. -/
def pyStrip (s : String) : String :=
  String.mk
    (((s.toList.dropWhile Char.isWhitespace).reverse.dropWhile
        Char.isWhitespace).reverse)

/-- Whether the second list is an initial segment of the first. -/
def startsWithList : List Char → List Char → Bool
  | _, [] => true
  | [], _ :: _ => false
  | c :: cs, d :: ds => c = d && startsWithList cs ds

/-- Fuelled worker for `pySplit`; the fuel is the length of the scanned
list, which strictly decreases at every step. -/
def splitFuel : ℕ → List Char → List Char → List (List Char)
  | 0, cs, _ => [cs]
  | _ + 1, [], _ => [[]]
  | n + 1, c :: cs, sep =>
      if startsWithList (c :: cs) sep && !sep.isEmpty then
        [] :: splitFuel n ((c :: cs).drop sep.length) sep
      else
        match splitFuel n cs sep with
        | [] => [[c]]
        | h :: t => (c :: h) :: t

/-- Model of Python's `str.split(sep)` for a non-empty separator. -/
def pySplit (s sep : String) : List String :=
  (splitFuel s.toList.length s.toList sep.toList).map String.mk

/-- Fuelled worker for `pyReplace`. -/
def replaceFuel : ℕ → List Char → List Char → List Char → List Char
  | 0, cs, _, _ => cs
  | _ + 1, [], _, _ => []
  | n + 1, c :: cs, old, new =>
      if startsWithList (c :: cs) old && !old.isEmpty then
        new ++ replaceFuel n ((c :: cs).drop old.length) old new
      else c :: replaceFuel n cs old new

/-- Model of Python's `str.replace(old, new)` for a non-empty `old` (the
only shape the repository can feed it that matters; an empty `old` never
changes the outcome of `to_float`, which discards the result anyway). -/
def pyReplace (s old new : String) : String :=
  String.mk (replaceFuel s.toList.length s.toList old.toList new.toList)

/-- Value of a list of decimal digit characters, `none` if empty or if any
character is not a digit. -/
def decDigits (cs : List Char) : Option ℕ :=
  if cs.isEmpty then none
  else
    cs.foldl
      (fun acc c =>
        match acc with
        | none => none
        | some n => if c.isDigit then some (n * 10 + (c.toNat - 48)) else none)
      (some 0)

/-- Model of Python's builtin `float(str)` on plain decimal literals
(optional sign, integer part, optional fractional part): `none` models a
`ValueError`. Exponents and the `inf`/`nan` spellings, which the repository
never feeds it, are left out. -/
def pyFloat (s : String) : Option ℚ :=
  let t := pyStrip s
  let signed : ℚ × List Char :=
    match t.toList with
    | '-' :: rest => (-1, rest)
    | '+' :: rest => (1, rest)
    | cs => (1, cs)
  match pySplit (String.mk signed.2) "." with
  | [a] => (decDigits a.toList).map (fun n => signed.1 * n)
  | [a, b] =>
      if a.isEmpty && b.isEmpty then none
      else
        match (if a.isEmpty then some 0 else decDigits a.toList),
            (if b.isEmpty then some 0 else decDigits b.toList) with
        | some na, some nb =>
            some (signed.1 * ((na : ℚ) + (nb : ℚ) / (10 ^ b.length)))
        | _, _ => none
  | _ => none

/-- `to_float` (lines 29-32): the result of `value.replace(decimal, '.')`
is discarded (strings are immutable and the call's value is not assigned),
so the parse always runs on the unmodified string. -/
def to_float (value : String) (decimal : String) : Option ℚ :=
  let _replaced := if decimal ≠ "." then pyReplace value decimal "." else value
  pyFloat value

/-- Model of Python's builtin `int(str)`: trims whitespace, then an
optional sign followed by decimal digits; `none` models a `ValueError`. -/
def pyInt (s : String) : Option ℤ :=
  let t := pyStrip s
  match t.toList with
  | '-' :: rest => (decDigits rest).map (fun n => -(n : ℤ))
  | '+' :: rest => (decDigits rest).map (fun n => (n : ℤ))
  | cs => (decDigits cs).map (fun n => (n : ℤ))

/-- `MyTCSV.resolve_field_ref` (lines 284-298), over the two pieces of
parser state it reads: the resolved `has_header` tag and the parsed
`field_names`. With a header, `int(field_ref)` is tried and on
`ValueError` the reference is looked up in `field_names`
(`list.index` raises `ValueError` when absent); without a header the
reference must parse as an integer. -/
def resolve_field_ref (has_header : Bool) (field_names : List String)
    (field_ref : String) : Except String ℤ :=
  if has_header then
    match pyInt field_ref with
    | some n => .ok n
    | none =>
        match field_names.indexOf? field_ref with
        | some i => .ok (i : ℤ)
        | none => .error "ValueError"
  else
    match pyInt field_ref with
    | some n => .ok n
    | none => .error "ValueError"

/-- Python values a tag default can take in `get_tag_value`. -/
inductive PyV where
  | pnone : PyV
  | pstr : String → PyV
  | pint : ℤ → PyV
  | pfloat : ℚ → PyV
  | pbool : Bool → PyV
deriving DecidableEq

/-- Python truthiness of a `PyV`. -/
def pyTruthy : PyV → Bool
  | .pnone => false
  | .pstr s => !s.isEmpty
  | .pint n => decide (n ≠ 0)
  | .pfloat q => decide (q ≠ 0)
  | .pbool b => b

/-- Python `value == 0` on a `PyV`: numeric values compare by value
(`False == 0` and `0.0 == 0` are both `True` in Python); strings and
`None` never equal `0`. -/
def pyEqZero : PyV → Bool
  | .pnone => false
  | .pstr _ => false
  | .pint n => decide (n = 0)
  | .pfloat q => decide (q = 0)
  | .pbool b => !b

/-- `MyTCSV.get_tag_value` (lines 273-279): the stored value when the tag
is present; on `KeyError`, the default when `default or default == 0`
holds, else a `RequiredTagMissing` failure. -/
def get_tag_value (tags : List (String × PyV)) (tag_name : String)
    (default : PyV) : Except String PyV :=
  match tags.lookup tag_name with
  | some v => .ok v
  | none =>
      if pyTruthy default || pyEqZero default then .ok default
      else .error errRequiredTag

/-- Parsed `bands_filepaths` tag (lines 394-395): strip the raw value,
split on commas, strip each piece. -/
def bands_paths_tag (tag_value : String) : List String :=
  (pySplit (pyStrip tag_value) ",").map pyStrip

/-- Parsed `bands_factors` tag (lines 396-398): strip the raw value, split
on commas, convert each stripped piece with `to_float`. -/
def bands_factors_tag (tag_value : String) (decimal : String) :
    List (Option ℚ) :=
  (pySplit (pyStrip tag_value) ",").map (fun v => to_float (pyStrip v) decimal)

/-- Band-list length check of `Samples.__init__` (lines 378-381): `bands`
is built one raster per parsed path, `bands_factor` is the parsed factor
list, and a length mismatch raises `BandsTagsError`. -/
def samples_bands_check (bands_paths : List String) (bands_factor : List ℚ) :
    Except String Unit :=
  if bands_paths.length ≠ bands_factor.length then .error errBandsTags
  else .ok ()

/-- State of a `Timeline` table that `read_pixel_dates` consumes: the
owned day-of-year raster, the parsed date column
(`self.data[self.tags[TAG_DATE_FIELD]]`, stored as `(year, month, day)`
triples) and the resolved `doy_factor` tag. -/
structure Timeline where
  doy_stack : Mygdal
  date_col : List (ℕ × ℕ × ℕ)
  day_factor : ℚ

/-- `Timeline.read_pixel_dates` (lines 345-353): read the day-of-year
values at the pixel, mask them against the doy raster's no-data values,
fail with `WrongTimeLineLength` when the read count differs from the
table's row count, else per row either
`datetime(dates[i].year, 1, 1) + timedelta(days=doys[i] * day_factor)`
(valid entry) or the table's own stored date (masked entry). Dates are
returned as rational ordinals. -/
def Timeline.read_pixel_dates (t : Timeline) (pixel : ℤ × ℤ) :
    Except String (List ℚ) :=
  let doys := t.doy_stack.read_pixel_values pixel
  let mask_nodata := t.doy_stack.mask_nodata_pixel_bands doys
  let dates := t.date_col
  if doys.length ≠ dates.length then .error errTimeLineLength
  else
    .ok ((List.range dates.length).map (fun i =>
      if mask_nodata.getD i false then
        ((toOrdinal (dates.getD i (1, 1, 1)).1 1 1 : ℚ) +
          doys.getD i 0 * t.day_factor)
      else (toOrdinal3 (dates.getD i (1, 1, 1)) : ℚ)))

/-- State of a `Samples` table that the time-series extraction consumes:
the owned timeline, the source projection tag, the parsed x/y columns,
the parsed from/to date columns (as `(year, month, day)` triples), the
band rasters and the band factors. -/
structure Samples where
  timeline : Timeline
  proj_wkt : String
  x_col : List ℚ
  y_col : List ℚ
  from_col : List (ℕ × ℕ × ℕ)
  to_col : List (ℕ × ℕ × ℕ)
  bands : List Mygdal
  bands_factor : List ℚ

/-- `Samples.read_samples_geolocs` (lines 423-429): the x and y columns
zipped into points, optionally restricted to `samples_index`. -/
def Samples.read_samples_geolocs (s : Samples)
    (samples_index : Option (List ℕ)) : List (ℚ × ℚ) :=
  match samples_index with
  | none => s.x_col.zip s.y_col
  | some idx =>
      (idx.map (fun i => s.x_col.getD i 0)).zip
        (idx.map (fun i => s.y_col.getD i 0))

/-- `Samples.reproject_samples_to` (lines 431-434). -/
def Samples.reproject_samples_to (s : Samples) (m : Mygdal)
    (samples_index : Option (List ℕ)) : List (ℚ × ℚ) :=
  m.reproject_geolocs_from (s.read_samples_geolocs samples_index) s.proj_wkt

/-- Elementwise `pixel_dates != values_nodata` factor of the mask on line
447: the left array holds `datetime` objects and the right one floats (or
`None`), and a `datetime` is unequal to any float or `None`, so each entry
is `True`. Both arguments are kept to mirror the source expression. -/
def dateNeqNodata (_date : ℚ) (_n : Option ℚ) : Bool :=
  true

/-- Python truthiness of a `datetime` (the `if date_from and date_to`
test on line 450): `datetime` defines no `__bool__`/`__len__`, so it is
always truthy. -/
def pyTruthyDate (_date : ℚ) : Bool :=
  true

/-- numpy boolean-mask selection `xs[mask]`. -/
def maskSelect (xs : List ℚ) (mask : List Bool) : List ℚ :=
  ((xs.zip mask).filter (fun p => p.2)).map (fun p => p.1)

/-- `Samples.get_samples_timeseries` (lines 436-458). Note that the
source reads BOTH interval bounds from the from-date column:
`date_from = self.data[self.tags[TAG_FROM_DT_FIELD]][i]` (line 442) and
`date_to = self.data[self.tags[TAG_FROM_DT_FIELD]][i]` (line 443). The
per-band result pairs are `(pixel_values[mask] * factor,
pixel_dates[mask])`; a failure inside `read_pixel_dates` propagates. -/
def Samples.get_samples_timeseries (s : Samples)
    (samples_index : Option (List ℕ)) (filter_sample_interval : Bool) :
    Except String (List (List (List ℚ × List ℚ))) :=
  let samples_pixels := s.timeline.doy_stack.geolocs_to_pixels
    (some (s.reproject_samples_to s.timeline.doy_stack samples_index))
  (List.range samples_pixels.length).mapM (fun i => do
    let pixel := samples_pixels.getD i (0, 0)
    let date_from : ℚ := (toOrdinal3 (s.from_col.getD i (1, 1, 1)) : ℚ)
    let date_to : ℚ := (toOrdinal3 (s.from_col.getD i (1, 1, 1)) : ℚ)
    let pixel_dates ← s.timeline.read_pixel_dates pixel
    pure ((s.bands.zip s.bands_factor).map (fun bj =>
      let pixel_values := bj.1.read_pixel_values pixel
      let mask := List.zipWith and
        (List.zipWith dateNeqNodata pixel_dates
          s.timeline.doy_stack.values_nodata)
        (List.zipWith neqNodata pixel_values bj.1.values_nodata)
      let mask :=
        if filter_sample_interval then
          if pyTruthyDate date_from && pyTruthyDate date_to then
            List.zipWith and mask
              (pixel_dates.map (fun d =>
                decide (d ≥ date_from) && decide (d ≤ date_to)))
          else if pyTruthyDate date_from then
            List.zipWith and mask
              (pixel_dates.map (fun d => decide (d ≥ date_from)))
          else if pyTruthyDate date_to then
            List.zipWith and mask
              (pixel_dates.map (fun d => decide (d ≤ date_to)))
          else mask
        else mask
      ((maskSelect pixel_values mask).map (fun v => v * bj.2),
        maskSelect pixel_dates mask))))

/-! Concrete instances used by counterexamples and witnesses. -/

/-- A 2x2 raster with unit resolution and unit skew on both axes. -/
def mygdalSkewed : Mygdal :=
  Mygdal.init "W" 2 2 0 1 1 0 1 1 [] (fun _ => []) (fun _ g => g)

/-- A 2x2 north-up raster with unit resolution and no skew. -/
def mygdalPlain : Mygdal :=
  Mygdal.init "W" 2 2 0 1 0 0 0 1 [] (fun _ => []) (fun _ g => g)

/-- A 1x1 day-of-year raster whose only pixel reads 45, no-data -1. -/
def doyStack45 : Mygdal :=
  Mygdal.init "EPSG" 1 1 0 1 0 0 0 1 [some (-1)] (fun _ => [45]) (fun _ g => g)

/-- Timeline with one row dated 2020-01-01 over `doyStack45`, factor 1. -/
def timeline45 : Timeline :=
  { doy_stack := doyStack45, date_col := [(2020, 1, 1)], day_factor := 1 }

/-- Same day-of-year raster but with the read value 45 declared no-data. -/
def doyStack45masked : Mygdal :=
  Mygdal.init "EPSG" 1 1 0 1 0 0 0 1 [some 45] (fun _ => [45]) (fun _ g => g)

/-- Timeline over `doyStack45masked`, one row dated 2020-01-01, factor 1. -/
def timeline45masked : Timeline :=
  { doy_stack := doyStack45masked, date_col := [(2020, 1, 1)], day_factor := 1 }

/-- Timeline whose table has two rows while its day-of-year raster reads a
single value per pixel. -/
def timelineMismatch : Timeline :=
  { doy_stack := doyStack45, date_col := [(2020, 1, 1), (2020, 2, 1)], day_factor := 1 }

/-- A 1x1 day-of-year raster whose only pixel reads 10, no-data -1. -/
def doyStack10 : Mygdal :=
  Mygdal.init "EPSG" 1 1 0 1 0 0 0 1 [some (-1)] (fun _ => [10]) (fun _ g => g)

/-- Timeline with one row dated 2020-01-01 over `doyStack10`, factor 1. -/
def timelineJan : Timeline :=
  { doy_stack := doyStack10, date_col := [(2020, 1, 1)], day_factor := 1 }

/-- A 1x1 band raster whose only pixel reads 5, no-data -1. -/
def bandNdvi : Mygdal :=
  Mygdal.init "EPSG" 1 1 0 1 0 0 0 1 [some (-1)] (fun _ => [5]) (fun _ g => g)

/-- One sample at geolocation (0,0), valid interval 2020-01-01 to
2020-12-31, one band with factor 2, same reference system as the
day-of-year raster. -/
def samplesOne : Samples :=
  { timeline := timelineJan, proj_wkt := "EPSG", x_col := [0], y_col := [0],
    from_col := [(2020, 1, 1)], to_col := [(2020, 12, 31)],
    bands := [bandNdvi], bands_factor := [2] }

/-- C1 counterexample: on a raster with unit skew on both axes, the
in-bounds pixel (1,1) does not survive the
`pixels_to_geolocs`/`geolocs_to_pixels` round trip (it comes back as
(4,4)), so the round-trip claim fails for general geotransforms. -/
theorem C1_counterexample :
    ((1 : ℕ) < mygdalSkewed.width ∧ (1 : ℕ) < mygdalSkewed.height) ∧
    mygdalSkewed.geolocs_to_pixels
        (some (mygdalSkewed.pixels_to_geolocs (some [((1 : ℚ), (1 : ℚ))]))) ≠
      [((1 : ℤ), (1 : ℤ))] := by
  constructor
  · exact ⟨by decide, by decide⟩
  · norm_num [mygdalSkewed, Mygdal.init, Mygdal.pixels_to_geolocs,
      Mygdal.geolocs_to_pixels, affine1, floor_divide_clean]

/-- C1 (amended): for a raster whose two skew coefficients are zero and
whose per-axis resolutions are nonzero, every pixel (x, y) with
0 ≤ x < width and 0 ≤ y < height maps through `pixels_to_geolocs` and
back through `geolocs_to_pixels` (floor-division semantics, non-finite
divisions by the zero skew replaced by zero) to itself. -/
theorem C1_roundtrip_zero_skew (wkt : String) (gt0 gt1 gt3 gt5 : ℚ)
    (nodata : List (Option ℚ)) (readArr : ℤ × ℤ → List ℚ)
    (tp : String → List (ℚ × ℚ) → List (ℚ × ℚ))
    (w h px py : ℕ) (h1 : gt1 ≠ 0) (h5 : gt5 ≠ 0) (hx : px < w) (hy : py < h) :
    (Mygdal.init wkt w h gt0 gt1 0 gt3 0 gt5 nodata readArr tp).geolocs_to_pixels
      (some ((Mygdal.init wkt w h gt0 gt1 0 gt3 0 gt5 nodata readArr
          tp).pixels_to_geolocs
        (some [((px : ℚ), (py : ℚ))]))) = [((px : ℤ), (py : ℤ))] := by
  simp only [Mygdal.init, Mygdal.pixels_to_geolocs, Mygdal.geolocs_to_pixels,
    affine1, floor_divide_clean, List.length_cons, List.length_nil,
    List.map_cons, List.map_nil]
  norm_num [h1, h5]

/-- C1 witness: the round trip at pixel (3,2) of a 4x5 zero-skew raster
with resolutions 2 and -3. -/
theorem C1_roundtrip_zero_skew_witness :
    (Mygdal.init "W" 4 5 10 2 0 20 0 (-3) [] (fun _ => [])
        (fun _ g => g)).geolocs_to_pixels
      (some ((Mygdal.init "W" 4 5 10 2 0 20 0 (-3) [] (fun _ => [])
          (fun _ g => g)).pixels_to_geolocs
        (some [((3 : ℚ), (2 : ℚ))]))) = [((3 : ℤ), (2 : ℤ))] :=
  C1_roundtrip_zero_skew "W" 10 2 20 (-3) [] (fun _ => []) (fun _ g => g)
    4 5 3 2 (by norm_num) (by norm_num) (by norm_num) (by norm_num)

/-- C2: `pixels_to_geolocs` built from the geotransform
(gt0, gt1, gt2, gt3, gt4, gt5) maps every point (x, y) to
(gt0 + gt1*x + gt4*x, gt3 + gt5*y + gt2*y) — the X output uses the
Y-skew coefficient gt4 and the Y output uses the X-skew coefficient
gt2 — and returns the empty result for an absent or empty input. -/
theorem C2_pixels_to_geolocs_affine (wkt : String) (w h : ℕ)
    (gt0 gt1 gt2 gt3 gt4 gt5 : ℚ) (nodata : List (Option ℚ))
    (readArr : ℤ × ℤ → List ℚ)
    (tp : String → List (ℚ × ℚ) → List (ℚ × ℚ)) (ps : List (ℚ × ℚ)) :
    (Mygdal.init wkt w h gt0 gt1 gt2 gt3 gt4 gt5 nodata readArr
        tp).pixels_to_geolocs (some ps) =
      ps.map (fun p => (gt0 + gt1 * p.1 + gt4 * p.1,
        gt3 + gt5 * p.2 + gt2 * p.2)) ∧
    (Mygdal.init wkt w h gt0 gt1 gt2 gt3 gt4 gt5 nodata readArr
        tp).pixels_to_geolocs none = [] := by
  constructor
  · cases ps <;> simp [Mygdal.init, Mygdal.pixels_to_geolocs, affine1]
  · rfl

/-- C3 counterexample: a row with table date 2020-01-01, day-of-year
value 45, factor 1.0 and the value not masked as no-data does NOT
resolve to 2020-02-14: the code computes Jan 1 plus 45 whole days, which
is 2020-02-15. -/
theorem C3_counterexample :
    timeline45.read_pixel_dates (0, 0) ≠ .ok [(toOrdinal 2020 2 14 : ℚ)] := by
  have h1 : toOrdinal 2020 1 1 = 737425 := by decide
  have h2 : toOrdinal 2020 2 14 = 737469 := by decide
  have hr : List.range 1 = [0] := by decide
  norm_num [Timeline.read_pixel_dates, timeline45, doyStack45, Mygdal.init,
    Mygdal.read_pixel_values, Mygdal.mask_nodata_pixel_bands, neqNodata,
    hr, h1, h2]

/-- C3 (amended): with table date 2020-01-01, day-of-year value 45 and
factor 1.0, a not-masked row resolves to 2020-02-15 (January 1 of the
table date's year plus doy * factor days); a masked row resolves to the
table's own stored date 2020-01-01. -/
theorem C3_read_pixel_dates_dates :
    timeline45.read_pixel_dates (0, 0) = .ok [(toOrdinal 2020 2 15 : ℚ)] ∧
    timeline45masked.read_pixel_dates (0, 0) =
      .ok [(toOrdinal 2020 1 1 : ℚ)] := by
  have h1 : toOrdinal 2020 1 1 = 737425 := by decide
  have h2 : toOrdinal 2020 2 15 = 737470 := by decide
  have h3 : toOrdinal3 (2020, 1, 1) = 737425 := by decide
  have hr : List.range 1 = [0] := by decide
  constructor
  · norm_num [Timeline.read_pixel_dates, timeline45, doyStack45, Mygdal.init,
      Mygdal.read_pixel_values, Mygdal.mask_nodata_pixel_bands, neqNodata,
      hr, h1, h2]
  · norm_num [Timeline.read_pixel_dates, timeline45masked, doyStack45masked,
      Mygdal.init, Mygdal.read_pixel_values, Mygdal.mask_nodata_pixel_bands,
      neqNodata, hr, h1]
    exact_mod_cast h3

/-- C4: evaluation of `get_samples_timeseries` at the failing input. The
sample's single observation resolves to date 2020-01-11, which lies
inside the row's interval [2020-01-01, 2020-12-31] (last two conjuncts)
and is kept with scaled value 10 when the interval filter is off (second
conjunct); yet with `filter_sample_interval` on, the code returns the
empty series (first conjunct), because line 443 reads `date_to` from the
from-date column, so the upper bound becomes 2020-01-01 instead of
2020-12-31. -/
theorem C4_interval_filter_uses_from_field :
    samplesOne.get_samples_timeseries none true = .ok [[([], [])]] ∧
    samplesOne.get_samples_timeseries none false =
      .ok [[([(10 : ℚ)], [(toOrdinal 2020 1 11 : ℚ)])]] ∧
    (toOrdinal3 (2020, 1, 1) : ℚ) ≤ (toOrdinal 2020 1 11 : ℚ) ∧
    (toOrdinal 2020 1 11 : ℚ) ≤ (toOrdinal3 (2020, 12, 31) : ℚ) := by
  have h1 : toOrdinal 2020 1 1 = 737425 := by decide
  have h2 : toOrdinal 2020 1 11 = 737435 := by decide
  have h3 : toOrdinal3 (2020, 1, 1) = 737425 := by decide
  have h4 : toOrdinal3 (2020, 12, 31) = 737790 := by decide
  have hr : List.range 1 = [0] := by decide
  refine ⟨?_, ?_, ?_, ?_⟩
  · norm_num [Samples.get_samples_timeseries, samplesOne, timelineJan,
      doyStack10, bandNdvi, Mygdal.init, Samples.reproject_samples_to,
      Samples.read_samples_geolocs, Mygdal.reproject_geolocs_from,
      Mygdal.geolocs_to_pixels, floor_divide_clean, Timeline.read_pixel_dates,
      Mygdal.read_pixel_values, Mygdal.mask_nodata_pixel_bands, neqNodata,
      dateNeqNodata, pyTruthyDate, maskSelect, List.mapM.loop, hr, h1, h2, h3, h4]
    intro _
    decide
  · norm_num [Samples.get_samples_timeseries, samplesOne, timelineJan,
      doyStack10, bandNdvi, Mygdal.init, Samples.reproject_samples_to,
      Samples.read_samples_geolocs, Mygdal.reproject_geolocs_from,
      Mygdal.geolocs_to_pixels, floor_divide_clean, Timeline.read_pixel_dates,
      Mygdal.read_pixel_values, Mygdal.mask_nodata_pixel_bands, neqNodata,
      dateNeqNodata, pyTruthyDate, maskSelect, List.mapM.loop, hr, h1, h2, h3, h4]
  · rw [h2, h3]; norm_num
  · rw [h2, h4]; norm_num

/-- C5: `resolve_field_ref` returns index 1 for the reference "1" whether
or not the table has a header; with a header [a, b] the reference "b"
resolves to position 1; without a header the reference "b" fails (a
`ValueError` from `int`). -/
theorem C5_resolve_field_ref_cases :
    (∀ (has_header : Bool) (field_names : List String),
      resolve_field_ref has_header field_names "1" = .ok 1) ∧
    resolve_field_ref true ["a", "b"] "b" = .ok 1 ∧
    (∀ field_names : List String,
      resolve_field_ref false field_names "b" = .error "ValueError") := by
  refine ⟨fun hh field_names => ?_, rfl, fun field_names => rfl⟩
  cases hh <;> rfl

/-- C6 counterexample: the pixel (-1, 0) lies outside the 2x2 raster
(its x coordinate is negative), yet `are_valid_pixels` returns false on
the singleton {(-1, 0)}, so the functions are not the "any point out of
bounds" predicate the claim describes. -/
theorem C6_counterexample :
    (-1 : ℤ) < 0 ∧
    mygdalPlain.are_valid_pixels [((-1 : ℤ), (0 : ℤ))] = false := by
  constructor
  · decide
  · norm_num [mygdalPlain, Mygdal.init, Mygdal.are_valid_pixels]

/-- C6 (amended): `are_valid_pixels` and `are_valid_geolocs` return true
exactly when some point has a coordinate that is simultaneously below the
lower bound and above the upper bound of the (sign-adjusted) box — the
source multiplies the two comparison masks, an elementwise AND, not an
OR — which no integer pixel coordinate can satisfy; in particular, for
every pixel inside the raster extent the singleton check returns
false. -/
theorem C6_any_out_of_bounds_characterisation (m : Mygdal)
    (ps : List (ℤ × ℤ)) (gs : List (ℚ × ℚ)) :
    (m.are_valid_pixels ps = true ↔
      ∃ p ∈ ps, (p.1 < 0 ∧ p.1 > (m.width : ℤ)) ∨
        (p.2 < 0 ∧ p.2 > (m.height : ℤ))) ∧
    (m.are_valid_geolocs gs = true ↔
      ∃ g ∈ gs,
        (g.1 < m.geo_ul.1 * npSign m.geo_resolution.1 ∧
          g.1 > m.geo_lr.1 * npSign m.geo_resolution.1) ∨
        (g.2 < m.geo_ul.2 * npSign m.geo_resolution.2 ∧
          g.2 > m.geo_lr.2 * npSign m.geo_resolution.2)) ∧
    (∀ p : ℤ × ℤ, 0 ≤ p.1 → p.1 < (m.width : ℤ) → 0 ≤ p.2 →
      p.2 < (m.height : ℤ) → m.are_valid_pixels [p] = false) := by
  refine ⟨?_, ?_, ?_⟩
  · simp [Mygdal.are_valid_pixels, List.any_eq_true]
  · simp [Mygdal.are_valid_geolocs, List.any_eq_true]
  · intro p hx1 hx2 hy1 hy2
    simp [Mygdal.are_valid_pixels]
    omega

/-- C6 witness: the in-bounds pixel (0, 0) of the 2x2 raster is reported
as within bounds (the singleton check returns false). -/
theorem C6_any_out_of_bounds_characterisation_witness :
    mygdalPlain.are_valid_pixels [((0 : ℤ), (0 : ℤ))] = false :=
  (C6_any_out_of_bounds_characterisation mygdalPlain [] []).2.2
    ((0 : ℤ), (0 : ℤ)) (by decide) (by decide) (by decide) (by decide)

/-- C7 counterexample: with one day-of-year value against two table rows
the read count differs from the row count, yet `read_pixel_dates` does
not fail with the `DiffStacksLength` kind — it raises
`WrongTimeLineLength` (the `DiffStacksLength` constant exists in the
module but is never raised here). -/
theorem C7_counterexample :
    (timelineMismatch.doy_stack.read_pixel_values (0, 0)).length ≠
        timelineMismatch.date_col.length ∧
    timelineMismatch.read_pixel_dates (0, 0) ≠ .error errStacksLength ∧
    timelineMismatch.read_pixel_dates (0, 0) = .error errTimeLineLength := by
  refine ⟨by decide, ?_, rfl⟩
  intro h
  simp [Timeline.read_pixel_dates, timelineMismatch, doyStack45, Mygdal.init,
    Mygdal.read_pixel_values, Mygdal.mask_nodata_pixel_bands, neqNodata,
    errStacksLength, errTimeLineLength] at h

/-- C7 (amended): `read_pixel_dates` fails with the `WrongTimeLineLength`
error kind whenever the number of day-of-year values read at the pixel
differs from the number of table rows, and succeeds with one resolved
date per row when the counts are equal. -/
theorem C7_length_mismatch_error (t : Timeline) (pixel : ℤ × ℤ) :
    ((t.doy_stack.read_pixel_values pixel).length ≠ t.date_col.length →
      t.read_pixel_dates pixel = .error errTimeLineLength) ∧
    ((t.doy_stack.read_pixel_values pixel).length = t.date_col.length →
      ∃ ds, t.read_pixel_dates pixel = .ok ds ∧
        ds.length = t.date_col.length) := by
  constructor
  · intro h
    simp only [Timeline.read_pixel_dates]
    rw [if_pos h]
  · intro h
    simp only [Timeline.read_pixel_dates]
    rw [if_neg (by simp [h])]
    exact ⟨_, rfl, by simp⟩

/-- C7 witness: the mismatched timeline fails with `WrongTimeLineLength`,
and the matched one-row timeline succeeds with one date. -/
theorem C7_length_mismatch_error_witness :
    timelineMismatch.read_pixel_dates (0, 0) = .error errTimeLineLength ∧
    ∃ ds, timeline45.read_pixel_dates (0, 0) = .ok ds ∧
      ds.length = timeline45.date_col.length :=
  ⟨(C7_length_mismatch_error timelineMismatch (0, 0)).1 (by decide),
    (C7_length_mismatch_error timeline45 (0, 0)).2 (by decide)⟩

/-- C8 counterexample: `False` is falsy and is not the integer 0, so by
the claim it should count as "no default" and the absent tag should
raise `RequiredTagMissing`; but Python's `default == 0` is `True` for
`False`, so `get_tag_value` returns the default `False` instead of
raising. -/
theorem C8_counterexample :
    pyTruthy (PyV.pbool false) = false ∧
    get_tag_value [] "t" (PyV.pbool false) = .ok (PyV.pbool false) :=
  ⟨rfl, rfl⟩

/-- C8 (amended): `get_tag_value` returns the stored value when the tag
is present; when absent it raises `RequiredTagMissing` exactly when the
default is falsy AND does not compare equal to 0 (so `None` and the
empty string raise, while 0, 0.0 and `False` — all `== 0` in Python —
are returned like any truthy default). -/
theorem C8_get_tag_value_characterisation (tags : List (String × PyV))
    (tag_name : String) (default : PyV) :
    (∀ v, tags.lookup tag_name = some v →
      get_tag_value tags tag_name default = .ok v) ∧
    (tags.lookup tag_name = none →
      (get_tag_value tags tag_name default = .error errRequiredTag ↔
        pyTruthy default = false ∧ pyEqZero default = false) ∧
      ((pyTruthy default = true ∨ pyEqZero default = true) →
        get_tag_value tags tag_name default = .ok default)) := by
  constructor
  · intro v hv
    simp [get_tag_value, hv]
  · intro hnone
    constructor
    · unfold get_tag_value
      rw [hnone]
      rcases h1 : pyTruthy default <;> rcases h2 : pyEqZero default <;>
        simp [h1, h2]
    · intro hd
      unfold get_tag_value
      rw [hnone]
      rcases hd with hd | hd <;> simp [hd]

/-- C8 witness: an absent tag with default `None` raises
`RequiredTagMissing`, and an absent tag with default 0 returns 0. -/
theorem C8_get_tag_value_characterisation_witness :
    get_tag_value [] "t" PyV.pnone = .error errRequiredTag ∧
    get_tag_value [] "t" (PyV.pint 0) = .ok (PyV.pint 0) :=
  ⟨(((C8_get_tag_value_characterisation [] "t" PyV.pnone).2 rfl).1).mpr
      ⟨rfl, rfl⟩,
    ((C8_get_tag_value_characterisation [] "t" (PyV.pint 0)).2 rfl).2
      (Or.inr (by decide))⟩

/-- C9: the tag value "a.tif,b.tif" parses to two band paths and "1.0"
parses to one factor; with those parsed lists the constructor's length
check fails with the `BandsTagsError` kind, and it passes whenever the
two lists have equal length. -/
theorem C9_bands_length_check :
    bands_paths_tag "a.tif,b.tif" = ["a.tif", "b.tif"] ∧
    bands_factors_tag "1.0" "." = [some 1] ∧
    samples_bands_check ["a.tif", "b.tif"] [1] = .error errBandsTags ∧
    (∀ (ps : List String) (fs : List ℚ), ps.length = fs.length →
      samples_bands_check ps fs = .ok ()) := by
  refine ⟨rfl, ?_, rfl, fun ps fs h => by simp [samples_bands_check, h]⟩
  simp +decide [bands_factors_tag, to_float, pyFloat, pyStrip, pySplit,
    splitFuel, startsWithList, decDigits]

/-- C9 witness: equal-length parsed lists pass the check. -/
theorem C9_bands_length_check_witness :
    samples_bands_check ["x.tif"] [(1 : ℚ)] = .ok () :=
  C9_bands_length_check.2.2.2 ["x.tif"] [1] rfl

/-- C10: `to_float` discards the result of the separator substitution
(line 31 never assigns `value.replace(decimal, '.')`), so for every value
and separator it parses the unmodified string; in particular "1,5" with
separator "," raises a parse error, even though the substituted string
"1.5" would have parsed to 1.5. -/
theorem C10_to_float_ignores_decimal :
    (∀ (value decimal : String), to_float value decimal = pyFloat value) ∧
    to_float "1,5" "," = none ∧
    pyFloat (pyReplace "1,5" "," ".") = some (3 / 2) := by
  refine ⟨fun value decimal => rfl, rfl, ?_⟩
  simp +decide [pyFloat, pyStrip, pyReplace, pySplit, splitFuel,
    startsWithList, replaceFuel, decDigits, String.length]
  norm_num
